import Mathlib

/-!
Shallow embedding of the ecdump EtherCAT capture analyzer.

The definitions below translate, file by file, the Rust sources of the
repository: `registers.rs` (AL control/status decoding, register address
constants), `subdevice.rs` (the SubDevice register files, the CommandStepper
family and the shared `change_state` ESM logic), `analyzer.rs` (the
DeviceManager and the per-command handlers), `ec_packet.rs` (the frame and
datagram parser) and `packet_source.rs` (the per-frame forwarding decision of
the capture paths).

Machine integers are modeled as `Nat` with explicit `% 2 ^ w` at the points
where the Rust code uses wrapping arithmetic.  `BTreeMap<u16, u8>` register
files become functions `Nat → Option Nat`.  Fallible code returns
`Option`/`Except`; for the parser, an outer `none` marks a Rust panic
(an out-of-bounds slice index), which the totality theorem proves unreachable.
-/

/-- AL states of `subdevice.rs` (`ECState`).  The Rust enum carries explicit
discriminants (`Init = 0x01, PreOp = 0x02, SafeOp = 0x04, Op = 0x08,
Bootstrap = 0x03`); `Bootstrap` is declared last. -/
inductive ECState
  | Init
  | PreOp
  | SafeOp
  | Op
  | Bootstrap
deriving DecidableEq

/-- The explicit `repr(u8)` discriminant of each `ECState` variant. -/
def ECState.toU8 : ECState → Nat
  | .Init => 1
  | .PreOp => 2
  | .SafeOp => 4
  | .Op => 8
  | .Bootstrap => 3

/-- The comparison order of `ECState`.  Rust's `derive(PartialOrd, Ord)` on a
field-less enum compares the discriminant values, which here are the explicit
`repr(u8)` discriminants, not the declaration order. -/
def stateLt (a b : ECState) : Prop := a.toU8 < b.toU8

instance (a b : ECState) : Decidable (stateLt a b) := Nat.decLt _ _

/-- Declaration position of each variant in the Rust enum (`Bootstrap` last). -/
def ECState.declPos : ECState → Nat
  | .Init => 0
  | .PreOp => 1
  | .SafeOp => 2
  | .Op => 3
  | .Bootstrap => 4

deriving instance DecidableEq for Except

/-- AL Control byte decoded, from `registers.rs`.  `state` is
`Result<ECState, u8>`: the raw low nibble when it does not decode. -/
structure AlControl where
  state : Except Nat ECState
  acknowledge : Bool
deriving DecidableEq

/-- `AlControl::new` of `registers.rs`: low nibble selects the state,
bit 4 is the acknowledge flag. -/
def AlControl.new (al_control : Nat) : AlControl :=
  { state :=
      match al_control % 16 with
      | 1 => .ok .Init
      | 2 => .ok .PreOp
      | 3 => .ok .Bootstrap
      | 4 => .ok .SafeOp
      | 8 => .ok .Op
      | other => .error other
    acknowledge := (al_control &&& 16) != 0 }

/-- AL Status byte decoded, from `registers.rs`. -/
structure AlStatus where
  state : Except Nat ECState
  error : Bool
deriving DecidableEq

/-- `AlStatus::new` of `registers.rs`: low nibble selects the state,
bit 4 is the error flag. -/
def AlStatus.new (al_status : Nat) : AlStatus :=
  { state :=
      match al_status % 16 with
      | 1 => .ok .Init
      | 2 => .ok .PreOp
      | 3 => .ok .Bootstrap
      | 4 => .ok .SafeOp
      | 8 => .ok .Op
      | other => .error other
    error := (al_status &&& 16) != 0 }

namespace RegisterAddress

/-- Register address constant from `registers.rs`. -/
def ConfiguredStationAddress : Nat := 0x0010

/-- Register address constant from `registers.rs`. -/
def ConfiguredStationAlias : Nat := 0x0012

/-- Register address constant from `registers.rs`. -/
def AlControl : Nat := 0x0120

/-- Register address constant from `registers.rs`. -/
def AlStatus : Nat := 0x0130

/-- Register address constant from `registers.rs`. -/
def AlStatusCode : Nat := 0x0134

end RegisterAddress

/-- A `BTreeMap<u16, u8>` register file as a lookup function. -/
abbrev RegFile := Nat → Option Nat

/-- `SubDevice::write_reg_impl`: insert each payload byte at offset
`reg_addr.wrapping_add(i)`. -/
def write_reg_impl (register : RegFile) (reg_addr : Nat) (data : List Nat) : RegFile :=
  data.enum.foldl
    (fun reg iv => fun a => if a = (reg_addr + iv.1) % 65536 then some iv.2 else reg a)
    register

/-- `SubDevice::read_reg_impl`: read `length` bytes starting at `reg_addr`
with u16 wrapping; absent offsets read as `none`. -/
def read_reg_impl (register : RegFile) (reg_addr length : Nat) : List (Option Nat) :=
  (List.range length).map fun i => register ((reg_addr + i) % 65536)

/-- The `iter.next().flatten()` idiom of `subdevice.rs` on a byte iterator:
first element, flattened. -/
def read_first (bytes : List (Option Nat)) : Option Nat :=
  bytes.head?.bind id

/-- Two `iter.next().flatten()` steps followed by `u16::from_le_bytes`,
as used for 16-bit register reads in `subdevice.rs`; `none` when either
byte is absent. -/
def read_le2 (bytes : List (Option Nat)) : Option Nat :=
  match bytes.head?.bind id, (bytes.get? 1).bind id with
  | some low, some high => some (low + 256 * high)
  | _, _ => none

/-- The reconstructed model of one subdevice, from `subdevice.rs`. -/
structure SubDevice where
  state : ECState
  has_esm_error : Bool
  configured_address : Option Nat
  al_status : Option AlStatus
  al_status_code : Option Nat
  al_control : Option AlControl
  register_brd : RegFile
  register_wr : RegFile
  register_rd : RegFile

/-- `SubDevice::new`: `Init` state, everything else unset/empty. -/
def SubDevice.new : SubDevice :=
  { state := .Init
    has_esm_error := false
    configured_address := none
    al_status := none
    al_status_code := none
    al_control := none
    register_brd := fun _ => none
    register_wr := fun _ => none
    register_rd := fun _ => none }

/-- `SubDevice::write_reg_wr`. -/
def SubDevice.write_reg_wr (sd : SubDevice) (reg_addr : Nat) (data : List Nat) : SubDevice :=
  { sd with register_wr := write_reg_impl sd.register_wr reg_addr data }

/-- `SubDevice::read_reg_wr`. -/
def SubDevice.read_reg_wr (sd : SubDevice) (reg_addr length : Nat) : List (Option Nat) :=
  read_reg_impl sd.register_wr reg_addr length

/-- `SubDevice::write_reg_rd`. -/
def SubDevice.write_reg_rd (sd : SubDevice) (reg_addr : Nat) (data : List Nat) : SubDevice :=
  { sd with register_rd := write_reg_impl sd.register_rd reg_addr data }

/-- `SubDevice::read_reg_rd`. -/
def SubDevice.read_reg_rd (sd : SubDevice) (reg_addr length : Nat) : List (Option Nat) :=
  read_reg_impl sd.register_rd reg_addr length

/-- `SubDevice::write_reg_brd`. -/
def SubDevice.write_reg_brd (sd : SubDevice) (reg_addr : Nat) (data : List Nat) : SubDevice :=
  { sd with register_brd := write_reg_impl sd.register_brd reg_addr data }

/-- `SubDevice::read_reg_brd`. -/
def SubDevice.read_reg_brd (sd : SubDevice) (reg_addr length : Nat) : List (Option Nat) :=
  read_reg_impl sd.register_brd reg_addr length

/-- `SubDevice::load_al_status_code`: read the u16 at `AlStatusCode` from
`register_rd`; `None` when either byte is absent. -/
def SubDevice.load_al_status_code (sd : SubDevice) : SubDevice :=
  { sd with al_status_code := read_le2 (sd.read_reg_rd RegisterAddress.AlStatusCode 2) }

/-- ESM validation errors of `subdevice.rs` (`ESMError`).  The Rust field
`from` of `BackwardTransition` is rendered `fromState` (`from` is a Lean
keyword); `to` becomes `toState` for symmetry. -/
inductive ESMError
  | HasError
  | IllegalTransition (toState : ECState)
  | InvalidStateTransition (requested current : ECState)
  | BackwardTransition (fromState toState : ECState) (has_error : Bool)
  | TransitionFailed (requested current : ECState) (has_error : Bool)
deriving DecidableEq

/-- The `change_requested` local of `CommandStepper::change_state`: the
AL-Control state when it decoded and differs from the current state. -/
def change_requested (sd : SubDevice) : Option ECState :=
  match sd.al_control with
  | none => none
  | some al_control =>
    match al_control.state with
    | .ok requested_state =>
      if requested_state ≠ sd.state then some requested_state else none
    | .error _ => none

/-- `CommandStepper::change_state` of `subdevice.rs`: the shared ESM
transition logic.  The Rust method mutates the subdevice and returns
`Result<(), ESMError>`; here it returns the new subdevice and the error,
if any.  The `packet_num` parameter of the source is only used in log
messages and is omitted. -/
def change_state (sd : SubDevice) : SubDevice × Option ESMError :=
  match sd.al_status with
  | none => (sd, none)
  | some al_status =>
    match al_status.state with
    | .error _ => (sd, none)
    | .ok new_state =>
      match change_requested sd with
      | some requested_state =>
        let old_state := sd.state
        let sd1 : SubDevice := { sd with state := new_state }
        if stateLt requested_state new_state then
          (sd1, some (.InvalidStateTransition requested_state new_state))
        else if stateLt new_state old_state then
          let sd2 := SubDevice.load_al_status_code { sd1 with has_esm_error := true }
          (sd2, some (.BackwardTransition old_state new_state al_status.error))
        else if stateLt new_state requested_state then
          (sd1, some (.TransitionFailed requested_state new_state al_status.error))
        else
          (sd1, none)
      | none =>
        let old_state := sd.state
        let sd1 : SubDevice := { sd with state := new_state }
        if sd1.al_control.isNone then
          (sd1, some (.IllegalTransition new_state))
        else if stateLt new_state old_state then
          let sd2 := SubDevice.load_al_status_code { sd1 with has_esm_error := true }
          (sd2, some (.BackwardTransition old_state new_state al_status.error))
        else if stateLt old_state new_state then
          (sd1, some (.InvalidStateTransition old_state new_state))
        else
          (sd1, none)

/-- The three concrete `CommandStepper` implementations of `subdevice.rs`. -/
inductive StepperKind
  | brdStep
  | aprdStep
  | fprdStep

/-- `AprdCommandStepper::init`: commit `configured_address` only when the
two-byte `ConfiguredStationAddress` reads of `register_wr` and `register_rd`
both succeed and agree; an early `None` return leaves the device untouched. -/
def aprdInit (sd : SubDevice) : SubDevice :=
  if sd.configured_address.isNone then
    match read_le2 (sd.read_reg_wr RegisterAddress.ConfiguredStationAddress 2) with
    | none => sd
    | some address_wr =>
      match read_le2 (sd.read_reg_rd RegisterAddress.ConfiguredStationAddress 2) with
      | none => sd
      | some address_rd =>
        if address_wr ≠ address_rd then sd
        else { sd with configured_address := some address_wr }
  else sd

/-- `BrdCommandStepper::common`: refresh `al_control` from
`register_wr[AlControl]`; set `al_status` from `register_brd[AlStatus]` only
when the byte is present and its state nibble decodes, clearing it otherwise. -/
def brdCommon (sd : SubDevice) : SubDevice :=
  let al_control := (read_first (sd.read_reg_wr RegisterAddress.AlControl 1)).map AlControl.new
  let sd := { sd with al_control := al_control }
  let al_status := (read_first (sd.read_reg_brd RegisterAddress.AlStatus 1)).map AlStatus.new
  match al_status with
  | some st =>
    match st.state with
    | .ok _ => { sd with al_status := some st }
    | .error _ => { sd with al_status := none }
  | none => { sd with al_status := none }

/-- `FprdCommandStepper::common`: refresh `al_control` from
`register_wr[AlControl]` and `al_status` from `register_rd[AlStatus]`
unconditionally. -/
def fprdCommon (sd : SubDevice) : SubDevice :=
  let al_control := (read_first (sd.read_reg_wr RegisterAddress.AlControl 1)).map AlControl.new
  let sd := { sd with al_control := al_control }
  let al_status := (read_first (sd.read_reg_rd RegisterAddress.AlStatus 1)).map AlStatus.new
  { sd with al_status := al_status }

/-- The per-state hook dispatch of `CommandStepper::execute`: only
`AprdCommandStepper` overrides a lifecycle hook (`init`); every other hook of
the three steppers is the default no-op, and `Bootstrap` runs no hook. -/
def hookByState (k : StepperKind) (sd : SubDevice) : SubDevice :=
  match sd.state with
  | .Init =>
    match k with
    | .aprdStep => aprdInit sd
    | _ => sd
  | _ => sd

/-- The `common` hook of each stepper (`AprdCommandStepper` keeps the
default no-op). -/
def stepperCommon (k : StepperKind) (sd : SubDevice) : SubDevice :=
  match k with
  | .brdStep => brdCommon sd
  | .aprdStep => sd
  | .fprdStep => fprdCommon sd

/-- `CommandStepper::execute`: state hook, then `common`, then
`change_state`. -/
def stepperExecute (k : StepperKind) (sd : SubDevice) : SubDevice × Option ESMError :=
  change_state (stepperCommon k (hookByState k sd))

/-- The EtherCAT command mnemonics (`ECCommands` of the `ecdump` library
crate, matched on by `analyzer.rs`; the numeric command table is in
`ec_packet.rs`). -/
inductive ECCommands
  | NOP
  | APRD
  | APWR
  | APRW
  | FPRD
  | FPWR
  | FPRW
  | BRD
  | BWR
  | BRW
  | LRD
  | LWR
  | LRW
  | ARMW
  | FRMW
deriving DecidableEq

/-- A decoded datagram as consumed by `analyzer.rs`: `command()` as a
mnemonic, `address()` as the `(low16, high16)` pair (auto-increment /
configured address, register offset), `length`, the payload bytes and the
trailing working counter. -/
structure ADatagram where
  command : ECCommands
  address : Nat × Nat
  length : Nat
  payload : List Nat
  wkc : Nat

/-- Analyzer errors of `analyzer.rs` (`ECError`); `timestamp` is carried
opaquely as a `Nat`. -/
inductive ECError
  | InvalidAutoIncrementAddress (adp : Nat)
  | InvalidConfiguredAddress (address : Nat)
  | InvalidWkc (packet_number : Nat) (command : ECCommands) (from_main : Bool)
      (timestamp : Nat) (expected : Nat) (actual : Nat)
  | UnsupportedCommand
deriving DecidableEq

/-- `DeviceManager` of `analyzer.rs`; the `HashMap<u16, usize>` becomes a
lookup function. -/
structure DeviceManager where
  uninitialized : Bool
  num_frames : Nat
  expected_wkc : Nat
  devices : List SubDevice
  config_address_map : Nat → Option Nat

/-- `DeviceManager::new`. -/
def DeviceManager.new : DeviceManager :=
  { uninitialized := true
    num_frames := 0
    expected_wkc := 0
    devices := []
    config_address_map := fun _ => none }

/-- `0_u16.wrapping_sub(b)` for `b < 65536`. -/
def u16_wsub (a b : Nat) : Nat := (a + 65536 - b % 65536) % 65536

/-- `usize::wrapping_sub` (64-bit). -/
def usize_wsub (a b : Nat) : Nat := (a + 18446744073709551616 - b % 18446744073709551616) % 18446744073709551616

/-- The `uninitialized` hook of the `Command` trait in `analyzer.rs`.  Only
`BrdCommand` overrides the default: a non-main BRD seen while uninitialized
allocates `datagram.wkc` fresh subdevices, clears the flag and lets
processing continue.  Returns the (possibly updated) manager and the value
of the hook (`true` = still uninitialized, skip the datagram). -/
def uninitializedHook (cmd : ECCommands) (dm : DeviceManager) (d : ADatagram)
    (from_main : Bool) : DeviceManager × Bool :=
  match cmd with
  | .BRD =>
    if dm.uninitialized && !from_main then
      ({ dm with devices := List.replicate d.wkc SubDevice.new, uninitialized := false }, false)
    else
      (dm, dm.uninitialized)
  | _ => (dm, dm.uninitialized)

/-- The `check_wkc` methods of `analyzer.rs`: main-side datagrams always
pass; inbound BRD/BWR expect `devices.len() as u16` and the other handled
commands expect `1`, recording the expectation in `expected_wkc`. -/
def checkWkc (cmd : ECCommands) (dm : DeviceManager) (d : ADatagram)
    (from_main : Bool) : DeviceManager × Bool :=
  if from_main then (dm, true)
  else
    let e : Nat :=
      match cmd with
      | .BRD | .BWR => dm.devices.length % 65536
      | _ => 1
    ({ dm with expected_wkc := e }, d.wkc == e)

/-- `BrdCommand::process` applied to one device: broadcast register write to
`register_brd` followed by the BRD state-machine step (whose result the
source discards). -/
def brdApply (d : ADatagram) (dev : SubDevice) : SubDevice :=
  (stepperExecute .brdStep (dev.write_reg_brd d.address.2 (d.payload.take d.length))).1

/-- The `process` methods of the six handled commands of `analyzer.rs`. -/
def processCmd (cmd : ECCommands) (dm : DeviceManager) (d : ADatagram)
    (from_main : Bool) : DeviceManager × Option ECError :=
  match cmd with
  | .BRD =>
    if !from_main then
      ({ dm with devices := dm.devices.map (brdApply d) }, none)
    else
      (dm, none)
  | .BWR =>
    if !from_main then
      (dm, none)
    else
      ({ dm with devices :=
          dm.devices.map (fun dev => dev.write_reg_wr d.address.2 (d.payload.take d.length)) },
       none)
  | .APWR =>
    let adp := d.address.1
    let idx := if from_main then u16_wsub 0 adp else usize_wsub dm.devices.length adp
    if h : idx < dm.devices.length then
      if !from_main then
        let dev := dm.devices.get ⟨idx, h⟩
        ({ dm with devices :=
            dm.devices.set idx (dev.write_reg_wr d.address.2 (d.payload.take d.length)) },
         none)
      else
        (dm, none)
    else
      (dm, some (.InvalidAutoIncrementAddress adp))
  | .APRD =>
    let adp := d.address.1
    let idx := if from_main then u16_wsub 0 adp else usize_wsub dm.devices.length adp
    if h : idx < dm.devices.length then
      if !from_main then
        let dev := dm.devices.get ⟨idx, h⟩
        let dev := dev.write_reg_rd d.address.2 (d.payload.take d.length)
        let dev := (stepperExecute .aprdStep dev).1
        let dm := { dm with devices := dm.devices.set idx dev }
        match dev.configured_address with
        | some ca =>
          ({ dm with config_address_map :=
              fun a => if a = ca then some idx else dm.config_address_map a }, none)
        | none => (dm, none)
      else
        (dm, none)
    else
      (dm, some (.InvalidAutoIncrementAddress adp))
  | .FPWR =>
    if !from_main then
      (dm, none)
    else
      match dm.config_address_map d.address.1 with
      | none => (dm, some (.InvalidConfiguredAddress d.address.1))
      | some i =>
        match dm.devices.get? i with
        | some dev =>
          ({ dm with devices :=
              dm.devices.set i (dev.write_reg_wr d.address.2 (d.payload.take d.length)) },
           none)
        | none => (dm, none)
  | .FPRD =>
    match dm.config_address_map d.address.1 with
    | none => (dm, some (.InvalidConfiguredAddress d.address.1))
    | some i =>
      if !from_main then
        match dm.devices.get? i with
        | some dev =>
          let dev := dev.write_reg_rd d.address.2 (d.payload.take d.length)
          let dev := (stepperExecute .fprdStep dev).1
          ({ dm with devices := dm.devices.set i dev }, none)
        | none => (dm, none)
      else
        (dm, none)
  | _ => (dm, none)

/-- `Command::process_common` of `analyzer.rs`: `uninitialized` hook, then
WKC check (a failure emits `InvalidWkc` with full context and returns
without processing), then the command's `process`. -/
def process_common (cmd : ECCommands) (dm : DeviceManager) (d : ADatagram)
    (timestamp : Nat) (from_main : Bool) : DeviceManager × Option ECError :=
  let u := uninitializedHook cmd dm d from_main
  if u.2 then (u.1, none)
  else
    let c := checkWkc cmd u.1 d from_main
    if c.2 then
      processCmd cmd c.1 d from_main
    else
      (c.1, some (.InvalidWkc c.1.num_frames cmd from_main timestamp c.1.expected_wkc d.wkc))

/-- The per-datagram dispatch of `DeviceManager::analyze_packet`: only
BRD, BWR, APWR, APRD, FPWR and FPRD reach a handler; every other command
falls through the wildcard arm untouched. -/
def dispatchDatagram (dm : DeviceManager) (d : ADatagram) (timestamp : Nat)
    (from_main : Bool) : DeviceManager × Option ECError :=
  match d.command with
  | .BRD | .BWR | .APWR | .APRD | .FPWR | .FPRD =>
    process_common d.command dm d timestamp from_main
  | _ => (dm, none)

/-- The datagram loop of `DeviceManager::analyze_packet`: datagrams are
processed in order and the `?` operator aborts the frame at the first
handler error. -/
def analyzeDatagrams (dm : DeviceManager) (ds : List ADatagram) (timestamp : Nat)
    (from_main : Bool) : DeviceManager × Option ECError :=
  match ds with
  | [] => (dm, none)
  | d :: rest =>
    match dispatchDatagram dm d timestamp from_main with
    | (dm1, none) => analyzeDatagrams dm1 rest timestamp from_main
    | (dm1, some e) => (dm1, some e)

/-- `DeviceManager::analyze_packet` after a successful parse: increment
`num_frames`, then run the datagram loop. -/
def analyze_packet (dm : DeviceManager) (ds : List ADatagram) (timestamp : Nat)
    (from_main : Bool) : DeviceManager × Option ECError :=
  analyzeDatagrams { dm with num_frames := dm.num_frames + 1 } ds timestamp from_main

/-- Parse errors of `ec_packet.rs` (`ECPacketError`). -/
inductive ECPacketError
  | InvalidHeader
  | InvalidDatalength
deriving DecidableEq

/-- A parsed datagram of `ec_packet.rs` (`ECDatagram`): raw numeric command,
`address` as the little-endian u32. -/
structure ECDatagramP where
  command : Nat
  index : Nat
  address : Nat
  length : Nat
  circular : Bool
  more : Bool
  irq : Nat
  payload : List Nat
  wkc : Nat
deriving DecidableEq

/-- An EtherCAT frame view of `ec_packet.rs` (`ECFrame`). -/
structure ECFrameP where
  total_length : Nat
  type_field : Nat
  payload : List Nat
deriving DecidableEq

/-- `ECFrame::new`: needs at least the 2 header bytes; low 11 bits are the
length, the top nibble the protocol type, the rest of the slice the payload. -/
def ECFrame_new (data : List Nat) : Option ECFrameP :=
  match data with
  | b0 :: b1 :: rest =>
    let header := b0 + 256 * b1
    some { total_length := header % 2048, type_field := (header / 4096) % 16, payload := rest }
  | _ => none

/-- A Rust indexing expression `data[i..i+n]` read as a little-endian number:
`none` models the out-of-bounds panic. -/
def readLE (data : List Nat) (i n : Nat) : Option Nat :=
  if i + n ≤ data.length then
    some (((data.drop i).take n).foldr (fun b acc => b + 256 * acc) 0)
  else none

/-- The Rust payload slice `&data[10..10 + length]`: `none` models the
out-of-bounds panic. -/
def slicePayload (data : List Nat) (length : Nat) : Option (List Nat) :=
  if 10 + length ≤ data.length then some ((data.drop 10).take length) else none

/-- `ECDatagram::new` of `ec_packet.rs`.  `some (.ok none)` is the
`Ok(None)` stop marker for a zero remaining length; the outer `none` marks a
Rust panic (out-of-bounds index), proven unreachable below. -/
def datagramNew (data : List Nat) (total_length : Nat) :
    Option (Except ECPacketError (Option ECDatagramP)) :=
  if total_length = 0 then some (.ok none)
  else if data.length < 10 then some (.error .InvalidDatalength)
  else
    match readLE data 0 1, readLE data 1 1, readLE data 2 4, readLE data 6 2 with
    | some command, some index, some address, some info =>
      let length := info % 2048
      if length + 10 + 2 > data.length ∨ length + 10 + 2 > total_length then
        some (.error .InvalidDatalength)
      else
        match readLE data 8 2, slicePayload data length, readLE data (10 + length) 2 with
        | some irq, some payload, some wkc =>
          some (.ok (some
            { command := command, index := index, address := address, length := length,
              circular := info.testBit 14, more := info.testBit 15,
              irq := irq, payload := payload, wkc := wkc }))
        | _, _, _ => none
    | _, _, _, _ => none

/-- The datagram loop of `ECFrame::parse_datagram`.  `remaining` counts the
declared bytes still to carve; the slice offset is `total_length - remaining`
and slicing past the payload end is the panic marker `none`.  The `fuel`
argument makes the recursion structural; it never runs out because every
carved datagram consumes at least 12 of `remaining` and `fuel` starts at
`remaining` (see the totality theorem). -/
def parse_go (payload : List Nat) (total_length : Nat) :
    Nat → Nat → List ECDatagramP → Option (Except ECPacketError (List ECDatagramP))
  | _, 0, acc =>
    if acc.isEmpty then some (.error .InvalidHeader) else some (.ok acc.reverse)
  | 0, _ + 1, _ => none
  | fuel + 1, r + 1, acc =>
    let remaining := r + 1
    if total_length - remaining > payload.length then none
    else
      match datagramNew (payload.drop (total_length - remaining)) remaining with
      | none => none
      | some (.error e) => some (.error e)
      | some (.ok none) => some (.error .InvalidHeader)
      | some (.ok (some d)) =>
        parse_go payload total_length fuel (remaining - (10 + d.length + 2)) (d :: acc)

/-- `ECFrame::parse_datagram`: carve datagrams until `total_length` is
consumed; `Err(InvalidHeader)` when bytes remain unconsumed or no datagram
was produced. -/
def parse_datagram (f : ECFrameP) : Option (Except ECPacketError (List ECDatagramP)) :=
  parse_go f.payload f.total_length f.total_length f.total_length []

/-- On-wire size of a parsed datagram: 10 header bytes, the payload, 2 WKC
bytes. -/
def datagram_wire_size (d : ECDatagramP) : Nat := 10 + d.length + 2

/-- The per-frame decision of the live-capture thread in
`start_packet_receive` (`packet_source.rs`): any buffer that parses as an
Ethernet frame (at least 14 bytes) has its payload forwarded to the analyzer
channel; the EtherType guard present in the file-replay paths is absent here
(it is commented out in the source). -/
def livePathForward (frame : List Nat) : Option (List Nat) :=
  if 14 ≤ frame.length then some (frame.drop 14) else none

/-- EtherType of an Ethernet frame: bytes 12..13 big-endian. -/
def frameEthertype (frame : List Nat) : Nat :=
  frame.getD 12 0 * 256 + frame.getD 13 0

/-- The per-frame decision of the PCAPNG branch of `start_read_pcap`
(`packet_source.rs`): frames whose EtherType is not `0x88A4` are skipped;
otherwise the Ethernet payload is forwarded.  (Buffers under 14 bytes make
`EthernetPacket::new(..).expect(..)` panic in the source; they are folded
into `none` here, which no claim distinguishes.) -/
def pcapngPathForward (frame : List Nat) : Option (List Nat) :=
  if 14 ≤ frame.length then
    if frameEthertype frame = 0x88a4 then some (frame.drop 14) else none
  else none

/-- The per-frame decision of the PCAP branch of `start_read_pcap`
(`packet_source.rs`); identical filtering to the PCAPNG branch. -/
def pcapPathForward (frame : List Nat) : Option (List Nat) :=
  if 14 ≤ frame.length then
    if frameEthertype frame = 0x88a4 then some (frame.drop 14) else none
  else none

/-- Reading one byte through the register-read iterator is a plain lookup. -/
theorem read_first_one (reg : RegFile) (a : Nat) :
    read_first (read_reg_impl reg a 1) = reg (a % 65536) := rfl

/-- Claim C8: the comparison order on `ECState` used by the ESM validator is
the order of the numeric AL-state values `Init=1 < PreOp=2 < Bootstrap=3 <
SafeOp=4 < Op=8`; in particular `Bootstrap` sits between `PreOp` and
`SafeOp`/`Op` even though it is declared last in the enum. -/
theorem C8_state_order :
    (∀ a b : ECState, stateLt a b ↔ a.toU8 < b.toU8) ∧
    stateLt .Init .PreOp ∧ stateLt .PreOp .Bootstrap ∧
    stateLt .Bootstrap .SafeOp ∧ stateLt .SafeOp .Op ∧
    ¬ stateLt .Op .Bootstrap ∧
    ECState.declPos .Op < ECState.declPos .Bootstrap :=
  ⟨fun _ _ => Iff.rfl, by decide, by decide, by decide, by decide, by decide, by decide⟩

/-- Claim C7: in `BrdCommandStepper::common`, `al_status` is set to the
freshly read `register_brd[AlStatus]` byte exactly when that byte is present
and its AL-state nibble decodes; in every other case it is cleared to
`none`. -/
theorem C7_brd_al_status_refresh (sd : SubDevice) :
    (sd.register_brd 0x130 = none → (brdCommon sd).al_status = none) ∧
    (∀ b, sd.register_brd 0x130 = some b →
      (∀ s, (AlStatus.new b).state = .ok s →
        (brdCommon sd).al_status = some (AlStatus.new b)) ∧
      (∀ e, (AlStatus.new b).state = .error e →
        (brdCommon sd).al_status = none)) := by
  have hread : ∀ x : Option AlControl,
      read_first (SubDevice.read_reg_brd { sd with al_control := x } RegisterAddress.AlStatus 1) =
        sd.register_brd 0x130 := by
    intro x
    simp [SubDevice.read_reg_brd, read_first_one, RegisterAddress.AlStatus]
  refine ⟨?_, ?_⟩
  · intro h
    simp [brdCommon, hread, h]
  · intro b hb
    refine ⟨?_, ?_⟩
    · intro s hs
      simp [brdCommon, hread, hb, hs]
    · intro e he
      simp [brdCommon, hread, hb, he]

/-- Concrete subdevice whose broadcast register file holds `0x02` (PreOp) at
`AlStatus`. -/
def c7sd : SubDevice :=
  { SubDevice.new with register_brd := fun a => if a = 0x130 then some 2 else none }

/-- Concrete subdevice whose broadcast register file holds the undecodable
nibble `0x05` at `AlStatus`, with a stale `al_status` present. -/
def c7sd2 : SubDevice :=
  { SubDevice.new with
    al_status := some (AlStatus.new 1)
    register_brd := fun a => if a = 0x130 then some 5 else none }

/-- Concrete subdevice with no `AlStatus` byte in `register_brd` and a stale
`al_status` present. -/
def c7sd3 : SubDevice := { SubDevice.new with al_status := some (AlStatus.new 1) }

/-- Witness for C7 at three concrete subdevices: decodable byte, undecodable
byte, absent byte. -/
theorem C7_witness :
    (brdCommon c7sd).al_status = some (AlStatus.new 2) ∧
    (brdCommon c7sd2).al_status = none ∧
    (brdCommon c7sd3).al_status = none :=
  ⟨((C7_brd_al_status_refresh c7sd).2 2 rfl).1 .PreOp rfl,
   ((C7_brd_al_status_refresh c7sd2).2 5 rfl).2 5 rfl,
   (C7_brd_al_status_refresh c7sd3).1 rfl⟩

/-- Claim C4 (amended): in the `requested = None` branch of `change_state`,
the new AL state is committed, and `IllegalTransition{to: new}` is emitted
exactly when `al_control` has never been observed — irrespective of whether
the new state equals the old one. -/
theorem C4_illegal_transition_iff_no_al_control (sd : SubDevice) (st : AlStatus) (s : ECState)
    (hst : sd.al_status = some st) (hok : st.state = .ok s)
    (hreq : change_requested sd = none) :
    ((change_state sd).2 = some (.IllegalTransition s) ↔ sd.al_control = none) ∧
    (change_state sd).1.state = s := by
  cases hc : sd.al_control with
  | none =>
    simp [change_state, hst, hok, hreq, hc]
  | some c =>
    constructor
    · constructor
      · intro h
        exfalso
        simp only [change_state, hst, hok, hreq, hc] at h
        split_ifs at h <;> simp_all
      · intro h
        exact Option.noConfusion h
    · simp only [change_state, hst, hok, hreq, hc]
      split_ifs <;> simp [SubDevice.load_al_status_code]

/-- Concrete subdevice: no `al_control` ever observed, current state `Init`,
`al_status` freshly decoded to `Init` — the new state equals the old one. -/
def c4sd : SubDevice := { SubDevice.new with al_status := some (AlStatus.new 1) }

/-- Counterexample to C4 as stated: with `al_control` never observed and the
new AL state equal to the old state (`Init`), the code still emits
`IllegalTransition{to: Init}`. -/
theorem C4_counterexample :
    c4sd.al_control = none ∧ c4sd.state = .Init ∧
    c4sd.al_status = some { state := .ok .Init, error := false } ∧
    (change_state c4sd).2 = some (.IllegalTransition .Init) := by
  decide

/-- Concrete subdevice for the C4 witness: `al_control` unobserved,
`al_status` decodes to `PreOp`. -/
def c4wsd : SubDevice := { SubDevice.new with al_status := some (AlStatus.new 2) }

/-- Witness for C4 at a concrete subdevice. -/
theorem C4_witness :
    ((change_state c4wsd).2 = some (.IllegalTransition .PreOp) ↔ c4wsd.al_control = none) ∧
    (change_state c4wsd).1.state = .PreOp :=
  C4_illegal_transition_iff_no_al_control c4wsd (AlStatus.new 2) .PreOp rfl rfl rfl

/-- Initialized manager holding a single fresh subdevice. -/
def c5dm : DeviceManager :=
  { uninitialized := false, num_frames := 1, expected_wkc := 0,
    devices := [SubDevice.new], config_address_map := fun _ => none }

/-- Outbound APWR: position 0, register offset `0x0010`, payload
`[0x34, 0x12]`. -/
def c5d : ADatagram :=
  { command := .APWR, address := (0, 0x10), length := 2, payload := [0x34, 0x12], wkc := 0 }

/-- Inbound APWR for the same write (position already decremented to 1 by
the ring), `wkc = 1`. -/
def c5din : ADatagram :=
  { command := .APWR, address := (1, 0x10), length := 2, payload := [0x34, 0x12], wkc := 1 }

/-- Claim C5: evaluating `ApwrCommand::process` at the failing input.  The
outbound (`from_main = true`) APWR leaves `register_wr` untouched — the
handler writes it only when `!from_main`, which the spec flags as a bug —
while the inbound copy of the same write does land in `register_wr`. -/
theorem C5_apwr_outbound_not_written :
    (dispatchDatagram c5dm c5d 0 true).2 = none ∧
    ((dispatchDatagram c5dm c5d 0 true).1.devices.map
      (fun dev => (dev.register_wr 0x10, dev.register_wr 0x11))) = [(none, none)] ∧
    ((dispatchDatagram c5dm c5din 0 false).1.devices.map
      (fun dev => (dev.register_wr 0x10, dev.register_wr 0x11))) = [(some 0x34, some 0x12)] := by
  decide

/-- The inbound WKC expectation actually computed by the `check_wkc`
implementations of `analyzer.rs` for the six handled commands. -/
def inbound_expected_wkc (cmd : ECCommands) (dm : DeviceManager) : Nat :=
  match cmd with
  | .BRD | .BWR => dm.devices.length % 65536
  | _ => 1

/-- On an initialized manager, an inbound datagram of a handled command whose
WKC differs from the expectation is answered by exactly one `InvalidWkc`
carrying full context, and the manager is left untouched except for the
`expected_wkc` scratch field: the register writes and the state-machine step
of the datagram are both skipped. -/
theorem dispatch_invalid_wkc (dm : DeviceManager) (d : ADatagram) (ts : Nat)
    (huninit : dm.uninitialized = false)
    (hcmd : d.command = .BRD ∨ d.command = .BWR ∨ d.command = .APWR ∨
      d.command = .APRD ∨ d.command = .FPWR ∨ d.command = .FPRD)
    (hwkc : d.wkc ≠ inbound_expected_wkc d.command dm) :
    dispatchDatagram dm d ts false =
      ({ dm with expected_wkc := inbound_expected_wkc d.command dm },
       some (.InvalidWkc dm.num_frames d.command false ts
         (inbound_expected_wkc d.command dm) d.wkc)) := by
  rcases hcmd with h | h | h | h | h | h <;>
    simp only [h, inbound_expected_wkc] at hwkc ⊢ <;>
    simp [dispatchDatagram, h, process_common, uninitializedHook, checkWkc,
      huninit, beq_iff_eq, hwkc]

/-- `change_state` never touches `configured_address`. -/
theorem change_state_configured_address (sd : SubDevice) :
    (change_state sd).1.configured_address = sd.configured_address := by
  simp only [change_state, SubDevice.load_al_status_code]
  repeat' split
  all_goals rfl

/-- `BrdCommandStepper::common` never touches `configured_address`. -/
theorem brdCommon_configured_address (sd : SubDevice) :
    (brdCommon sd).configured_address = sd.configured_address := by
  simp only [brdCommon]
  repeat' split
  all_goals rfl

/-- The BRD stepper has no state-specific hook. -/
theorem hookByState_brd (sd : SubDevice) : hookByState .brdStep sd = sd := by
  unfold hookByState
  split <;> rfl

/-- Applying a BRD datagram to one device preserves `configured_address`. -/
theorem brdApply_configured_address (d : ADatagram) (dev : SubDevice) :
    (brdApply d dev).configured_address = dev.configured_address := by
  unfold brdApply stepperExecute stepperCommon
  rw [hookByState_brd, change_state_configured_address, brdCommon_configured_address]
  rfl

/-- Claim C1 (amended): on an initialized manager, an inbound datagram of a
handled command with a wrong WKC makes `process_common` return exactly one
`InvalidWkc{packet_number, command, from_main, timestamp, expected, actual}`
as an ordinary error value, and the whole datagram is skipped: the register
files are not written and the state machine does not step, the manager
changing only in its `expected_wkc` scratch field. -/
theorem C1_invalid_wkc_skips_datagram (dm : DeviceManager) (d : ADatagram) (ts : Nat)
    (huninit : dm.uninitialized = false)
    (hcmd : d.command = .BRD ∨ d.command = .BWR ∨ d.command = .APWR ∨
      d.command = .APRD ∨ d.command = .FPWR ∨ d.command = .FPRD)
    (hwkc : d.wkc ≠ inbound_expected_wkc d.command dm) :
    dispatchDatagram dm d ts false =
      ({ dm with expected_wkc := inbound_expected_wkc d.command dm },
       some (.InvalidWkc dm.num_frames d.command false ts
         (inbound_expected_wkc d.command dm) d.wkc)) :=
  dispatch_invalid_wkc dm d ts huninit hcmd hwkc

/-- Initialized manager holding one fresh subdevice, seven frames analyzed. -/
def c1dm : DeviceManager :=
  { uninitialized := false, num_frames := 7, expected_wkc := 0,
    devices := [SubDevice.new], config_address_map := fun _ => none }

/-- Inbound BRD at `AlStatus` with payload `[0x02]` and a wrong WKC of 5. -/
def c1d : ADatagram :=
  { command := .BRD, address := (0, 0x130), length := 1, payload := [2], wkc := 5 }

/-- Counterexample to C1 as stated: the wrong-WKC inbound BRD does emit
`InvalidWkc`, but its subdevice-side effects are NOT applied — the
`register_brd` byte it carried is never written and the device does not
step. -/
theorem C1_counterexample :
    (dispatchDatagram c1dm c1d 0 false).2 = some (.InvalidWkc 7 .BRD false 0 1 5) ∧
    ((dispatchDatagram c1dm c1d 0 false).1.devices.map
      (fun dev => dev.register_brd 0x130)) = [none] ∧
    ((dispatchDatagram c1dm c1d 0 false).1.devices.map SubDevice.state) = [.Init] := by
  decide

/-- Witness for C1 at the concrete wrong-WKC BRD. -/
theorem C1_witness :
    dispatchDatagram c1dm c1d 0 false =
      ({ c1dm with expected_wkc := 1 }, some (.InvalidWkc 7 .BRD false 0 1 5)) :=
  C1_invalid_wkc_skips_datagram c1dm c1d 0 rfl (Or.inl rfl) (by decide)

/-- Claim C2 (amended): after initialization, inbound BRD/BWR expect
`devices.len()` and inbound APRD/APWR/FPRD/FPWR expect `1`, a deviation
producing exactly one `InvalidWkc`; BRW, ARMW and FRMW are never dispatched
by `analyze_packet`, so their WKC is never checked and they can never
produce an `InvalidWkc`. -/
theorem C2_wkc_expectation_table :
    (∀ (dm : DeviceManager) (d : ADatagram) (ts : Nat),
       dm.uninitialized = false → (d.command = .BRD ∨ d.command = .BWR) →
       d.wkc ≠ dm.devices.length % 65536 →
       (dispatchDatagram dm d ts false).2 =
         some (.InvalidWkc dm.num_frames d.command false ts (dm.devices.length % 65536) d.wkc)) ∧
    (∀ (dm : DeviceManager) (d : ADatagram) (ts : Nat),
       dm.uninitialized = false →
       (d.command = .APRD ∨ d.command = .APWR ∨ d.command = .FPRD ∨ d.command = .FPWR) →
       d.wkc ≠ 1 →
       (dispatchDatagram dm d ts false).2 =
         some (.InvalidWkc dm.num_frames d.command false ts 1 d.wkc)) ∧
    (∀ (dm : DeviceManager) (d : ADatagram) (ts : Nat) (fm : Bool),
       (d.command = .BRW ∨ d.command = .ARMW ∨ d.command = .FRMW) →
       dispatchDatagram dm d ts fm = (dm, none)) := by
  refine ⟨?_, ?_, ?_⟩
  · intro dm d ts hu hc hw
    rcases hc with h | h <;>
      rw [dispatch_invalid_wkc dm d ts hu (by tauto)
        (by simpa [inbound_expected_wkc, h] using hw)] <;>
      simp [inbound_expected_wkc, h]
  · intro dm d ts hu hc hw
    rcases hc with h | h | h | h <;>
      rw [dispatch_invalid_wkc dm d ts hu (by tauto)
        (by simpa [inbound_expected_wkc, h] using hw)] <;>
      simp [inbound_expected_wkc, h]
  · intro dm d ts fm hc
    rcases hc with h | h | h <;> simp [dispatchDatagram, h]

/-- Initialized manager with two fresh subdevices, three frames analyzed. -/
def c2dm : DeviceManager :=
  { uninitialized := false, num_frames := 3, expected_wkc := 0,
    devices := [SubDevice.new, SubDevice.new], config_address_map := fun _ => none }

/-- Inbound BRW whose WKC (0) differs from `devices.len()` (2). -/
def c2d : ADatagram :=
  { command := .BRW, address := (0, 0), length := 0, payload := [], wkc := 0 }

/-- Counterexample to C2 as stated: an inbound BRW with a deviating WKC
produces no `InvalidWkc` at all — BRW is not dispatched. -/
theorem C2_counterexample :
    c2dm.devices.length = 2 ∧ c2d.wkc = 0 ∧ c2d.command = .BRW ∧
    dispatchDatagram c2dm c2d 0 false = (c2dm, none) :=
  ⟨rfl, rfl, rfl, rfl⟩

/-- Inbound BWR with WKC 9 on a two-device bus. -/
def c2wd : ADatagram :=
  { command := .BWR, address := (0, 0), length := 0, payload := [], wkc := 9 }

/-- Inbound APRD with WKC 9. -/
def c2wd2 : ADatagram :=
  { command := .APRD, address := (2, 0), length := 0, payload := [], wkc := 9 }

/-- Witness for C2 at concrete datagrams of each class. -/
theorem C2_witness :
    (dispatchDatagram c2dm c2wd 0 false).2 = some (.InvalidWkc 3 .BWR false 0 2 9) ∧
    (dispatchDatagram c2dm c2wd2 0 false).2 = some (.InvalidWkc 3 .APRD false 0 1 9) ∧
    dispatchDatagram c2dm c2d 0 false = (c2dm, none) :=
  ⟨C2_wkc_expectation_table.1 c2dm c2wd 0 rfl (Or.inr rfl) (by decide),
   C2_wkc_expectation_table.2.1 c2dm c2wd2 0 rfl (Or.inl rfl) (by decide),
   C2_wkc_expectation_table.2.2 c2dm c2d 0 false (Or.inl rfl)⟩

/-- The full effect of the first inbound BRD on an uninitialized manager:
`datagram.wkc` fresh devices are created and the flag cleared; the same
datagram is then WKC-checked against the fresh roster and, on success,
broadcast-written and stepped on every device. -/
theorem dispatch_first_brd (dm : DeviceManager) (d : ADatagram) (ts : Nat)
    (hu : dm.uninitialized = true) (hc : d.command = .BRD) :
    dispatchDatagram dm d ts false =
      (if d.wkc == d.wkc % 65536 then
        ({ dm with
            uninitialized := false
            expected_wkc := d.wkc % 65536
            devices := (List.replicate d.wkc SubDevice.new).map (brdApply d) }, none)
       else
        ({ dm with
            uninitialized := false
            expected_wkc := d.wkc % 65536
            devices := List.replicate d.wkc SubDevice.new },
         some (.InvalidWkc dm.num_frames .BRD false ts (d.wkc % 65536) d.wkc))) := by
  simp only [dispatchDatagram, hc, process_common, uninitializedHook, hu, checkWkc,
    processCmd, List.length_replicate]
  cases hk : (d.wkc == d.wkc % 65536) <;> simp [hk]

/-- Claim C3 (amended): while the manager is uninitialized, every datagram
other than a non-main BRD is ignored and changes nothing; the first inbound
BRD with WKC = n creates exactly n SubDevices — each constructed in `Init`
with `configured_address` unset, which stays unset through the datagram —
and clears the `uninitialized` flag, after which the creating BRD itself is
processed (so its broadcast write and state step can immediately advance the
fresh devices past `Init`). -/
theorem C3_initialization :
    (∀ (dm : DeviceManager) (d : ADatagram) (ts : Nat) (fm : Bool),
       dm.uninitialized = true → (d.command = .BRD → fm = true) →
       dispatchDatagram dm d ts fm = (dm, none)) ∧
    (∀ (dm : DeviceManager) (d : ADatagram) (ts : Nat),
       dm.uninitialized = true → d.command = .BRD →
       (dispatchDatagram dm d ts false).1.uninitialized = false ∧
       (dispatchDatagram dm d ts false).1.devices.length = d.wkc ∧
       (∀ dev ∈ (dispatchDatagram dm d ts false).1.devices,
          dev.configured_address = none)) := by
  constructor
  · intro dm d ts fm hu hbrd
    cases hcm : d.command <;>
      first
        | (simp [dispatchDatagram, hcm, process_common, uninitializedHook, hu]; done)
        | (simp [dispatchDatagram, hcm, process_common, uninitializedHook, hu, hbrd hcm]; done)
  · intro dm d ts hu hcm
    rw [dispatch_first_brd dm d ts hu hcm]
    cases hk : (d.wkc == d.wkc % 65536) <;>
      simp [List.mem_replicate, brdApply_configured_address, SubDevice.new]

/-- Claim C9 (amended): on the PCAP and PCAPNG file-replay paths a captured
Ethernet frame is forwarded to the decoder exactly when its EtherType is
`0x88A4`; on the live-capture path the EtherType filter is absent (the guard
is commented out in the source), so every frame that parses as Ethernet is
forwarded regardless of EtherType. -/
theorem C9_frame_filter :
    (∀ frame : List Nat, 14 ≤ frame.length →
       ((pcapngPathForward frame).isSome ↔ frameEthertype frame = 0x88a4) ∧
       ((pcapPathForward frame).isSome ↔ frameEthertype frame = 0x88a4)) ∧
    (∀ frame : List Nat, 14 ≤ frame.length →
       livePathForward frame = some (frame.drop 14)) := by
  constructor
  · intro frame h
    constructor <;>
      (simp only [pcapngPathForward, pcapPathForward, if_pos h]
       split <;> simp_all)
  · intro frame h
    simp [livePathForward, h]

/-- A 14-byte Ethernet frame with EtherType `0x0800` (IPv4). -/
def c9ipv4 : List Nat := [0, 0, 0, 0, 0, 0, 0, 0, 0, 0, 0, 0, 8, 0]

/-- Counterexample to C9 as stated: on the live-capture path this non-EtherCAT
frame is forwarded to the analyzer anyway. -/
theorem C9_counterexample :
    frameEthertype c9ipv4 ≠ 0x88a4 ∧ livePathForward c9ipv4 = some [] := by
  decide

/-- An EtherCAT frame (EtherType `0x88A4`) with a one-byte payload. -/
def c9ecat : List Nat := [0, 0, 0, 0, 0, 0, 0, 0, 0, 0, 0, 0, 0x88, 0xa4, 9]

/-- Witness for C9 at concrete frames. -/
theorem C9_witness :
    ((pcapngPathForward c9ecat).isSome ↔ frameEthertype c9ecat = 0x88a4) ∧
    ((pcapPathForward c9ecat).isSome ↔ frameEthertype c9ecat = 0x88a4) ∧
    livePathForward c9ecat = some [9] :=
  ⟨(C9_frame_filter.1 c9ecat (by decide)).1,
   (C9_frame_filter.1 c9ecat (by decide)).2,
   C9_frame_filter.2 c9ecat (by decide)⟩

/-- A guarded multi-byte read always succeeds within bounds. -/
theorem readLE_eq_some (data : List Nat) (i n : Nat) (h : i + n ≤ data.length) :
    readLE data i n =
      some (((data.drop i).take n).foldr (fun b acc => b + 256 * acc) 0) := by
  unfold readLE
  rw [if_pos h]

/-- `ECDatagram::new` never hits the panic marker: every index it touches is
covered by the `data.len() < 10` and `length + 10 + 2 > data.len()` guards. -/
theorem datagramNew_isSome (data : List Nat) (total : Nat) :
    (datagramNew data total).isSome := by
  unfold datagramNew
  by_cases h0 : total = 0
  · simp [h0]
  · rw [if_neg h0]
    by_cases hlen : data.length < 10
    · simp [hlen]
    · rw [if_neg hlen]
      have h10 : 10 ≤ data.length := Nat.le_of_not_lt hlen
      obtain ⟨v0, hv0⟩ : ∃ v, readLE data 0 1 = some v :=
        ⟨_, readLE_eq_some data 0 1 (by omega)⟩
      obtain ⟨v1, hv1⟩ : ∃ v, readLE data 1 1 = some v :=
        ⟨_, readLE_eq_some data 1 1 (by omega)⟩
      obtain ⟨v2, hv2⟩ : ∃ v, readLE data 2 4 = some v :=
        ⟨_, readLE_eq_some data 2 4 (by omega)⟩
      obtain ⟨v3, hv3⟩ : ∃ v, readLE data 6 2 = some v :=
        ⟨_, readLE_eq_some data 6 2 (by omega)⟩
      simp only [hv0, hv1, hv2, hv3]
      by_cases hg : v3 % 2048 + 10 + 2 > data.length ∨ v3 % 2048 + 10 + 2 > total
      · rw [if_pos hg]
        rfl
      · rw [if_neg hg]
        push_neg at hg
        obtain ⟨hg1, hg2⟩ := hg
        obtain ⟨w0, hw0⟩ : ∃ v, readLE data 8 2 = some v :=
          ⟨_, readLE_eq_some data 8 2 (by omega)⟩
        obtain ⟨w1, hw1⟩ : ∃ v, slicePayload data (v3 % 2048) = some v :=
          ⟨_, by unfold slicePayload; rw [if_pos (by omega)]⟩
        obtain ⟨w2, hw2⟩ : ∃ v, readLE data (10 + v3 % 2048) 2 = some v :=
          ⟨_, readLE_eq_some data (10 + v3 % 2048) 2 (by omega)⟩
        simp [hw0, hw1, hw2]

/-- A successfully carved datagram fits in both the remaining slice and the
remaining declared frame length. -/
theorem datagramNew_ok_bounds (data : List Nat) (total : Nat) (d : ECDatagramP)
    (h : datagramNew data total = some (.ok (some d))) :
    10 + d.length + 2 ≤ data.length ∧ 10 + d.length + 2 ≤ total := by
  unfold datagramNew at h
  by_cases h0 : total = 0
  · rw [if_pos h0] at h
    exact absurd h (by simp)
  · rw [if_neg h0] at h
    by_cases hlen : data.length < 10
    · rw [if_pos hlen] at h
      exact absurd h (by simp)
    · rw [if_neg hlen] at h
      have h10 : 10 ≤ data.length := Nat.le_of_not_lt hlen
      obtain ⟨v0, hv0⟩ : ∃ v, readLE data 0 1 = some v :=
        ⟨_, readLE_eq_some data 0 1 (by omega)⟩
      obtain ⟨v1, hv1⟩ : ∃ v, readLE data 1 1 = some v :=
        ⟨_, readLE_eq_some data 1 1 (by omega)⟩
      obtain ⟨v2, hv2⟩ : ∃ v, readLE data 2 4 = some v :=
        ⟨_, readLE_eq_some data 2 4 (by omega)⟩
      obtain ⟨v3, hv3⟩ : ∃ v, readLE data 6 2 = some v :=
        ⟨_, readLE_eq_some data 6 2 (by omega)⟩
      simp only [hv0, hv1, hv2, hv3] at h
      by_cases hg : v3 % 2048 + 10 + 2 > data.length ∨ v3 % 2048 + 10 + 2 > total
      · rw [if_pos hg] at h
        exact absurd h (by simp)
      · rw [if_neg hg] at h
        push_neg at hg
        obtain ⟨hg1, hg2⟩ := hg
        obtain ⟨w0, hw0⟩ : ∃ v, readLE data 8 2 = some v :=
          ⟨_, readLE_eq_some data 8 2 (by omega)⟩
        obtain ⟨w1, hw1⟩ : ∃ v, slicePayload data (v3 % 2048) = some v :=
          ⟨_, by unfold slicePayload; rw [if_pos (by omega)]⟩
        obtain ⟨w2, hw2⟩ : ∃ v, readLE data (10 + v3 % 2048) 2 = some v :=
          ⟨_, readLE_eq_some data (10 + v3 % 2048) 2 (by omega)⟩
        simp only [hw0, hw1, hw2, Option.some.injEq, Except.ok.injEq] at h
        cases h
        refine ⟨by simp; omega, by simp; omega⟩

/-- Every successful chained parse accounts for exactly the remaining
declared length: the wire sizes of the datagrams carved from `remaining`
bytes sum to `remaining` (plus whatever the accumulator already held), and
the result is nonempty. -/
theorem parse_go_ok (payload : List Nat) (total : Nat) :
    ∀ (fuel remaining : Nat) (acc ds : List ECDatagramP),
      parse_go payload total fuel remaining acc = some (.ok ds) →
      (ds.map datagram_wire_size).sum =
        ((acc.map datagram_wire_size).sum + remaining) ∧ ds ≠ [] := by
  intro fuel
  induction fuel with
  | zero =>
    intro remaining acc ds h
    cases remaining with
    | zero =>
      unfold parse_go at h
      by_cases he : acc.isEmpty
      · rw [if_pos he] at h
        exact absurd h (by simp)
      · rw [if_neg he] at h
        simp only [Option.some.injEq, Except.ok.injEq] at h
        subst h
        refine ⟨by simp [List.sum_reverse], by simpa using he⟩
    | succ r =>
      exact absurd h (by simp [parse_go])
  | succ fuel ih =>
    intro remaining acc ds h
    cases remaining with
    | zero =>
      unfold parse_go at h
      by_cases he : acc.isEmpty
      · rw [if_pos he] at h
        exact absurd h (by simp)
      · rw [if_neg he] at h
        simp only [Option.some.injEq, Except.ok.injEq] at h
        subst h
        refine ⟨by simp [List.sum_reverse], by simpa using he⟩
    | succ r =>
      unfold parse_go at h
      by_cases hoff : total - (r + 1) > payload.length
      · rw [if_pos hoff] at h
        exact absurd h (by simp)
      · rw [if_neg hoff] at h
        cases hd : datagramNew (payload.drop (total - (r + 1))) (r + 1) with
        | none =>
          rw [hd] at h
          exact absurd h (by simp)
        | some res =>
          rw [hd] at h
          cases res with
          | error e => exact absurd h (by simp)
          | ok o =>
            cases o with
            | none => exact absurd h (by simp)
            | some d =>
              obtain ⟨hsum, hne⟩ := ih (r + 1 - (10 + d.length + 2)) (d :: acc) ds h
              obtain ⟨_, hb2⟩ :=
                datagramNew_ok_bounds (payload.drop (total - (r + 1))) (r + 1) d hd
              refine ⟨?_, hne⟩
              rw [hsum]
              simp only [List.map_cons, List.sum_cons, datagram_wire_size]
              omega

/-- The chained parse never hits the panic marker: the slice offset stays
within the payload and `ECDatagram::new` is total, while the fuel (which
starts at `remaining`) can never run out because every iteration strips at
least 12 bytes. -/
theorem parse_go_isSome (payload : List Nat) (total : Nat) :
    ∀ (fuel remaining : Nat) (acc : List ECDatagramP),
      remaining ≤ fuel → remaining ≤ total → total - remaining ≤ payload.length →
      (parse_go payload total fuel remaining acc).isSome := by
  intro fuel
  induction fuel with
  | zero =>
    intro remaining acc h1 _ _
    have hz : remaining = 0 := Nat.le_zero.mp h1
    subst hz
    unfold parse_go
    split <;> rfl
  | succ fuel ih =>
    intro remaining acc h1 h2 h3
    cases remaining with
    | zero =>
      unfold parse_go
      split <;> rfl
    | succ r =>
      unfold parse_go
      rw [if_neg (by omega : ¬ total - (r + 1) > payload.length)]
      cases hd : datagramNew (payload.drop (total - (r + 1))) (r + 1) with
      | none =>
        have := datagramNew_isSome (payload.drop (total - (r + 1))) (r + 1)
        rw [hd] at this
        exact absurd this (by simp)
      | some res =>
        cases res with
        | error e => rfl
        | ok o =>
          cases o with
          | none => rfl
          | some d =>
            obtain ⟨hb1, hb2⟩ :=
              datagramNew_ok_bounds (payload.drop (total - (r + 1))) (r + 1) d hd
            have hdrop : (payload.drop (total - (r + 1))).length =
                payload.length - (total - (r + 1)) := List.length_drop _ _
            exact ih (r + 1 - (10 + d.length + 2)) (d :: acc)
              (by omega) (by omega) (by omega)

/-- Claim C6: whenever the frame parser succeeds, the on-wire sizes
`10 + length + 2` of the parsed datagrams sum to exactly the frame's
`total_length`, and at least one datagram was produced; a parse that would
yield zero datagrams or not consume exactly `total_length` returns an error
value instead. -/
theorem C6_datagram_length_invariant (f : ECFrameP) (ds : List ECDatagramP)
    (h : parse_datagram f = some (.ok ds)) :
    (ds.map datagram_wire_size).sum = f.total_length ∧ ds ≠ [] := by
  have := parse_go_ok f.payload f.total_length f.total_length f.total_length [] ds h
  simpa using this

/-- Witness for C6: a concrete 13-byte frame holding one BRD datagram of
payload length 1. -/
theorem C6_witness :
    (([{ command := 7, index := 0, address := 0, length := 1, circular := false,
         more := false, irq := 0, payload := [1], wkc := 1 }] :
       List ECDatagramP).map datagram_wire_size).sum = 13 ∧
    ([{ command := 7, index := 0, address := 0, length := 1, circular := false,
        more := false, irq := 0, payload := [1], wkc := 1 }] :
      List ECDatagramP) ≠ [] :=
  C6_datagram_length_invariant
    { total_length := 13, type_field := 1, payload := [7, 0, 0, 0, 0, 0, 1, 0, 0, 0, 1, 1, 0] }
    [{ command := 7, index := 0, address := 0, length := 1, circular := false,
       more := false, irq := 0, payload := [1], wkc := 1 }]
    (by decide)

/-- Claim C10: constructing an `ECFrame` and parsing it is total — the
parser returns an `Ok` or `Err` value and never performs an out-of-bounds
access, even when the declared `total_length` exceeds the bytes present. -/
theorem C10_parse_total (data : List Nat) (f : ECFrameP)
    (h : ECFrame_new data = some f) :
    ∃ r, parse_datagram f = some r := by
  have hs := parse_go_isSome f.payload f.total_length f.total_length f.total_length []
    (Nat.le_refl _) (Nat.le_refl _) (by simp)
  exact Option.isSome_iff_exists.mp hs

/-- Witness for C10: a 2-byte capture whose header declares 5 payload bytes
that are not present; the parse still returns a value (an error, not a
panic). -/
theorem C10_witness :
    ∃ r, parse_datagram { total_length := 5, type_field := 1, payload := ([] : List Nat) } = some r :=
  C10_parse_total [5, 16] { total_length := 5, type_field := 1, payload := [] } rfl

/-- First inbound BRD of a capture: `AlStatus` register, payload `[0x02]`
(PreOp), WKC 1. -/
def c3d : ADatagram :=
  { command := .BRD, address := (0, 0x130), length := 1, payload := [2], wkc := 1 }

/-- Counterexample to C3 as stated: the single subdevice created by the
first inbound BRD is not left in `Init` — the very same datagram's broadcast
write and state step move it to `PreOp`. -/
theorem C3_counterexample :
    ((dispatchDatagram DeviceManager.new c3d 0 false).1.devices.map SubDevice.state) =
      [ECState.PreOp] := by
  decide

/-- Witness for C3: a main-side BRD is ignored while uninitialized, and the
first inbound BRD creates one device with the flag cleared and no configured
address. -/
theorem C3_witness :
    dispatchDatagram DeviceManager.new c3d 0 true = (DeviceManager.new, none) ∧
    (dispatchDatagram DeviceManager.new c3d 0 false).1.uninitialized = false ∧
    (dispatchDatagram DeviceManager.new c3d 0 false).1.devices.length = 1 ∧
    (∀ dev ∈ (dispatchDatagram DeviceManager.new c3d 0 false).1.devices,
       dev.configured_address = none) :=
  ⟨C3_initialization.1 DeviceManager.new c3d 0 true rfl (fun _ => rfl),
   (C3_initialization.2 DeviceManager.new c3d 0 rfl rfl).1,
   (C3_initialization.2 DeviceManager.new c3d 0 rfl rfl).2.1,
   (C3_initialization.2 DeviceManager.new c3d 0 rfl rfl).2.2⟩

/-- Witness for C8 at a concrete pair of states. -/
theorem C8_witness :
    stateLt .Init .PreOp ↔ ECState.toU8 .Init < ECState.toU8 .PreOp :=
  C8_state_order.1 .Init .PreOp
